import Mathlib

/-
Verification of the inventory-management console program
(`Tpfinalentregapython.py`): a SQLite-backed product CRUD store
(`GestorInventario`) plus a menu-driven console controller.

The SQLite table `productos` is modelled as a list of rows in insertion
order together with the AUTOINCREMENT counter.  Each store method of
`GestorInventario` is translated to a pure function on this state; a
second, fault-instrumented variant (`*_f`) makes the possibility of a
`sqlite3.Error` during the SQL work explicit, so that the try/except
structure of each method (which methods catch, which let the exception
escape) is visible in the model.
-/

namespace Inventario

/-- One row of the `productos` table.  Columns follow the schema created by
`crear_tabla`: `id INTEGER PRIMARY KEY AUTOINCREMENT`, `nombre TEXT NOT NULL`,
`descripcion TEXT` (nullable), `cantidad INTEGER NOT NULL`,
`precio REAL NOT NULL`, `categoria TEXT` (nullable). -/
structure Producto where
  id : Int
  nombre : String
  descripcion : Option String
  cantidad : Int
  precio : Rat
  categoria : Option String
deriving Repr, DecidableEq

/-- The persistent state: the rows of `productos` in storage-native
(insertion) order, plus the AUTOINCREMENT counter, which is strictly larger
than every id ever assigned. -/
structure DB where
  rows : List Producto
  nextId : Int
deriving Repr, DecidableEq

/-- Outcome of running a piece of Python code that may let an exception
escape uncaught: either a normal return value or an uncaught exception. -/
inductive PResult (α : Type) where
  | ok : α → PResult α
  | exn : PResult α
deriving Repr, DecidableEq

/-- Tests a predicate on every suffix of a character list (used for the
`%` wildcard, which may absorb any prefix of the remaining text). -/
def anySuffix (f : List Char → Bool) : List Char → Bool
  | [] => f []
  | c :: s => f (c :: s) || anySuffix f s

/-- SQL `LIKE` matching (SQLite default: `%` matches any run, `_` one
character, ordinary characters compare ASCII-case-insensitively), on
explicit character lists. -/
def likeMatch : List Char → List Char → Bool
  | [], s => s.isEmpty
  | '%' :: ps, s => anySuffix (likeMatch ps) s
  | '_' :: ps, s =>
      match s with
      | [] => false
      | _ :: s2 => likeMatch ps s2
  | p :: ps, s =>
      match s with
      | [] => false
      | c :: s2 => (p.toLower == c.toLower) && likeMatch ps s2

/-- The pattern `f"%{s}%"` built by the two substring-search methods. -/
def likePattern (s : String) : List Char :=
  '%' :: (s.data ++ ['%'])

/-- registrar_producto: `INSERT INTO productos (nombre, descripcion,
cantidad, precio, categoria) VALUES (?, ?, ?, ?, ?)`; AUTOINCREMENT assigns
the next id.  Returns True on success. -/
def registrar_producto (db : DB) (nombre : String) (descripcion : Option String)
    (cantidad : Int) (precio : Rat) (categoria : Option String) : Bool × DB :=
  (true,
   { rows := db.rows ++
       [{ id := db.nextId, nombre := nombre, descripcion := descripcion,
          cantidad := cantidad, precio := precio, categoria := categoria }],
     nextId := db.nextId + 1 })

/-- visualizar_productos: `SELECT * FROM productos`, all rows in
storage-native order. -/
def visualizar_productos (db : DB) : List Producto :=
  db.rows

/-- buscar_producto_por_id: `SELECT * FROM productos WHERE id = ?` followed
by `fetchone()`: the first matching row, or None. -/
def buscar_producto_por_id (db : DB) (id_producto : Int) : Option Producto :=
  db.rows.find? (fun r => r.id == id_producto)

/-- buscar_productos_por_nombre: `SELECT * FROM productos WHERE nombre LIKE
?` with pattern `f"%{nombre}%"`.  `nombre` is NOT NULL so every row is
tested. -/
def buscar_productos_por_nombre (db : DB) (nombre : String) : List Producto :=
  db.rows.filter (fun r => likeMatch (likePattern nombre) r.nombre.data)

/-- buscar_productos_por_categoria: `SELECT * FROM productos WHERE categoria
LIKE ?` with pattern `f"%{categoria}%"`.  In SQL, `NULL LIKE pattern`
evaluates to NULL, which is not true, so rows whose `categoria` is NULL
never match. -/
def buscar_productos_por_categoria (db : DB) (categoria : String) : List Producto :=
  db.rows.filter (fun r =>
    match r.categoria with
    | none => false
    | some c => likeMatch (likePattern categoria) c.data)

/-- The outcome of `actualizar_producto`, distinguishing the distinct
user-facing messages the method prints alongside its boolean result. -/
inductive UpdateOutcome where
  | updated
  | notFound
  | nothingToUpdate
  | sqlError
deriving Repr, DecidableEq

/-- The test `if not campos_actualizar` of `actualizar_producto`: true when
none of the five optional parameters was supplied. -/
def camposVacios (nombre descripcion : Option String) (cantidad : Option Int)
    (precio : Option Rat) (categoria : Option String) : Bool :=
  nombre.isNone && descripcion.isNone && cantidad.isNone &&
    precio.isNone && categoria.isNone

/-- The effect of the dynamically built `UPDATE productos SET ... WHERE id =
?` on one matching row: each of the five columns is set when the
corresponding parameter is not None, and kept otherwise; the id column is
never in the SET list. -/
def aplicarCampos (r : Producto) (nombre descripcion : Option String)
    (cantidad : Option Int) (precio : Option Rat) (categoria : Option String) :
    Producto :=
  { r with
    nombre := nombre.getD r.nombre
    descripcion := match descripcion with
      | none => r.descripcion
      | some d => some d
    cantidad := cantidad.getD r.cantidad
    precio := precio.getD r.precio
    categoria := match categoria with
      | none => r.categoria
      | some c => some c }

/-- actualizar_producto, normal persistence: checks existence with
buscar_producto_por_id (returns False, "does not exist", if absent), then
fails with "no fields specified" when every parameter is None, otherwise
runs the UPDATE on every row whose id matches. -/
def actualizar_producto (db : DB) (id_producto : Int)
    (nombre descripcion : Option String) (cantidad : Option Int)
    (precio : Option Rat) (categoria : Option String) : UpdateOutcome × DB :=
  if (buscar_producto_por_id db id_producto).isNone then
    (UpdateOutcome.notFound, db)
  else if camposVacios nombre descripcion cantidad precio categoria then
    (UpdateOutcome.nothingToUpdate, db)
  else
    (UpdateOutcome.updated,
     { db with
       rows := db.rows.map (fun r =>
         if r.id == id_producto then
           aplicarCampos r nombre descripcion cantidad precio categoria
         else r) })

/-- eliminar_producto, normal persistence: checks existence with
buscar_producto_por_id (returns False if absent), then `DELETE FROM
productos WHERE id = ?` and returns True. -/
def eliminar_producto (db : DB) (id_producto : Int) : Bool × DB :=
  if (buscar_producto_por_id db id_producto).isNone then
    (false, db)
  else
    (true, { db with rows := db.rows.filter (fun r => !(r.id == id_producto)) })

/-- reporte_bajo_stock: `SELECT * FROM productos WHERE cantidad <= ?`. -/
def reporte_bajo_stock (db : DB) (limite : Int) : List Producto :=
  db.rows.filter (fun r => r.cantidad ≤ limite)

/-- registrar_producto with its SQL work possibly raising `sqlite3.Error`:
the whole body is inside try/except, so a fault is caught and the method
returns False with the table unchanged. -/
def registrar_producto_f (db : DB) (nombre : String) (descripcion : Option String)
    (cantidad : Int) (precio : Rat) (categoria : Option String) (fault : Bool) :
    PResult (Bool × DB) :=
  if fault then PResult.ok (false, db)
  else PResult.ok (registrar_producto db nombre descripcion cantidad precio categoria)

/-- visualizar_productos has no try/except: a `sqlite3.Error` raised by its
SELECT escapes uncaught. -/
def visualizar_productos_f (db : DB) (fault : Bool) : PResult (List Producto) :=
  if fault then PResult.exn
  else PResult.ok (visualizar_productos db)

/-- buscar_producto_por_id has no try/except: a fault escapes uncaught. -/
def buscar_producto_por_id_f (db : DB) (id_producto : Int) (fault : Bool) :
    PResult (Option Producto) :=
  if fault then PResult.exn
  else PResult.ok (buscar_producto_por_id db id_producto)

/-- buscar_productos_por_nombre has no try/except: a fault escapes
uncaught. -/
def buscar_productos_por_nombre_f (db : DB) (nombre : String) (fault : Bool) :
    PResult (List Producto) :=
  if fault then PResult.exn
  else PResult.ok (buscar_productos_por_nombre db nombre)

/-- buscar_productos_por_categoria has no try/except: a fault escapes
uncaught. -/
def buscar_productos_por_categoria_f (db : DB) (categoria : String) (fault : Bool) :
    PResult (List Producto) :=
  if fault then PResult.exn
  else PResult.ok (buscar_productos_por_categoria db categoria)

/-- reporte_bajo_stock has no try/except: a fault escapes uncaught. -/
def reporte_bajo_stock_f (db : DB) (limite : Int) (fault : Bool) :
    PResult (List Producto) :=
  if fault then PResult.exn
  else PResult.ok (reporte_bajo_stock db limite)

/-- actualizar_producto with faults made explicit.  `faultCheck`: the
existence check `self.buscar_producto_por_id(id_producto)` runs BEFORE the
try block and buscar_producto_por_id has no handler, so a fault there
escapes uncaught.  `faultUpdate`: the `cursor.execute(consulta, valores)`
inside the try block raises; this is caught and the method returns False
with the table unchanged. -/
def actualizar_producto_f (db : DB) (id_producto : Int)
    (nombre descripcion : Option String) (cantidad : Option Int)
    (precio : Option Rat) (categoria : Option String)
    (faultCheck faultUpdate : Bool) : PResult (UpdateOutcome × DB) :=
  if faultCheck then PResult.exn
  else if (buscar_producto_por_id db id_producto).isNone then
    PResult.ok (UpdateOutcome.notFound, db)
  else if camposVacios nombre descripcion cantidad precio categoria then
    PResult.ok (UpdateOutcome.nothingToUpdate, db)
  else if faultUpdate then
    PResult.ok (UpdateOutcome.sqlError, db)
  else
    PResult.ok (actualizar_producto db id_producto nombre descripcion cantidad
      precio categoria)

/-- eliminar_producto with faults made explicit.  `faultCheck`: the
existence check runs before the try block, so a fault there escapes
uncaught.  `faultDelete`: the DELETE inside the try block raises; caught,
method returns False with the table unchanged. -/
def eliminar_producto_f (db : DB) (id_producto : Int)
    (faultCheck faultDelete : Bool) : PResult (Bool × DB) :=
  if faultCheck then PResult.exn
  else if (buscar_producto_por_id db id_producto).isNone then
    PResult.ok (false, db)
  else if faultDelete then
    PResult.ok (false, db)
  else
    PResult.ok (eliminar_producto db id_producto)

/-- The numeric value of a list of decimal digits. -/
def digitosVal (l : List Char) : Nat :=
  l.foldl (fun acc c => acc * 10 + (c.toNat - '0'.toNat)) 0

/-- Python's `str.strip()` as used by `int`/`float` conversion: discard
leading and trailing whitespace. -/
def stripEspacios (l : List Char) : List Char :=
  ((l.dropWhile (fun c => c.isWhitespace)).reverse.dropWhile
    (fun c => c.isWhitespace)).reverse

/-- Modelled from Python's built-in `int(str)`: optional surrounding
whitespace, optional sign, then a non-empty run of decimal digits; any
other string raises ValueError, modelled as `none`.  (Underscore digit
separators and non-ASCII digits are not modelled; no input in this program
depends on them.) -/
def pyInt (s : String) : Option Int :=
  let t := stripEspacios s.data
  let signBody : Bool × List Char :=
    match t with
    | '-' :: rest => (true, rest)
    | '+' :: rest => (false, rest)
    | rest => (false, rest)
  let body := signBody.2
  if body.isEmpty || !body.all (fun c => c.isDigit) then none
  else some (if signBody.1 then -(digitosVal body : Int) else (digitosVal body : Int))

/-- Modelled from Python's built-in `float(str)`: optional surrounding
whitespace, optional sign, then decimal digits with at most one point and
at least one digit; any other string raises ValueError, modelled as `none`.
(Scientific notation, `inf`/`nan` and underscore separators are not
modelled; no input in this program depends on them.)  The value is exact as
a rational; float rounding is irrelevant to the properties proved here. -/
def pyFloat (s : String) : Option Rat :=
  let t := stripEspacios s.data
  let signBody : Bool × List Char :=
    match t with
    | '-' :: rest => (true, rest)
    | '+' :: rest => (false, rest)
    | rest => (false, rest)
  let entResto := signBody.2.span (fun c => c.isDigit)
  let frac : Option (List Char) :=
    match entResto.2 with
    | [] => some []
    | '.' :: fr => if fr.all (fun c => c.isDigit) then some fr else none
    | _ => none
  match frac with
  | none => none
  | some fr =>
    if entResto.1.isEmpty && fr.isEmpty then none
    else
      let v : Rat :=
        (digitosVal entResto.1 : Rat) + (digitosVal fr : Rat) / ((10 : Rat) ^ fr.length)
      some (if signBody.1 then -v else v)

/-- obtener_entero: `int(input(mensaje))` with ValueError caught, printing
an error and returning None.  The argument is the line the user typed.
This helper never lets the exception escape. -/
def obtener_entero (line : String) : Option Int :=
  pyInt line

/-- obtener_decimal: `float(input(mensaje))` with ValueError caught,
printing an error and returning None. -/
def obtener_decimal (line : String) : Option Rat :=
  pyFloat line

/-- The quantity field of opcion_actualizar: `int(cantidad_input) if
cantidad_input else None` — a blank line skips the field, but `int` is
called bare (no try/except), so a non-numeric non-blank line raises an
uncaught ValueError. -/
def parseCampoEntero (line : String) : PResult (Option Int) :=
  if line = "" then PResult.ok none
  else
    match pyInt line with
    | some n => PResult.ok (some n)
    | none => PResult.exn

/-- The price field of opcion_actualizar: `float(precio_input) if
precio_input else None` — likewise a bare `float` call. -/
def parseCampoDecimal (line : String) : PResult (Option Rat) :=
  if line = "" then PResult.ok none
  else
    match pyFloat line with
    | some q => PResult.ok (some q)
    | none => PResult.exn

/-- opcion_actualizar as a function of the lines the user types at its six
prompts: id, new name, new description, new quantity, new price, new
category.  `input(...) or None` turns a blank text answer into None.
Invalid id input or a missing product aborts the action (store unchanged);
the result is the database state after the dialog, or an uncaught
exception. -/
def opcion_actualizar (db : DB)
    (idLine nombreLine descLine cantLine precioLine catLine : String) :
    PResult DB :=
  match obtener_entero idLine with
  | none => PResult.ok db
  | some id_producto =>
    if (buscar_producto_por_id db id_producto).isNone then PResult.ok db
    else
      let nombre := if nombreLine = "" then none else some nombreLine
      let descripcion := if descLine = "" then none else some descLine
      match parseCampoEntero cantLine with
      | PResult.exn => PResult.exn
      | PResult.ok cantidad =>
        match parseCampoDecimal precioLine with
        | PResult.exn => PResult.exn
        | PResult.ok precio =>
          let categoria := if catLine = "" then none else some catLine
          PResult.ok (actualizar_producto db id_producto nombre descripcion
            cantidad precio categoria).2

/-- Python's `str.upper()` on the ASCII range, character by character. -/
def pyUpper (l : List Char) : List Char :=
  l.map Char.toUpper

/-- opcion_eliminar as a function of the lines the user types at its two
prompts (id, confirmation).  Returns the database state after the dialog
and whether the store's eliminar_producto was invoked.  The confirmation
test is `confirmacion.upper() == "S"`. -/
def opcion_eliminar (db : DB) (idLine confirmLine : String) : DB × Bool :=
  match obtener_entero idLine with
  | none => (db, false)
  | some id_producto =>
    if (buscar_producto_por_id db id_producto).isNone then (db, false)
    else if pyUpper confirmLine.data = ['S'] then
      ((eliminar_producto db id_producto).2, true)
    else (db, false)

/-- The ids of the stored rows are pairwise distinct (PRIMARY KEY). -/
abbrev DB.idsDistintos (db : DB) : Prop :=
  (db.rows.map (fun r => r.id)).Nodup

/-- Every stored id is below the AUTOINCREMENT counter, so the next
assigned id is fresh. -/
abbrev DB.idsFrescos (db : DB) : Prop :=
  ∀ r ∈ db.rows, r.id < db.nextId

/-- Well-formedness maintained by the schema: distinct ids, fresh
counter. -/
abbrev DB.wf (db : DB) : Prop :=
  db.idsDistintos ∧ db.idsFrescos

/-- A concrete product used to exercise the theorems below on explicit
inputs. -/
def productoDemo : Producto :=
  { id := 1, nombre := "Teclado", descripcion := some "USB", cantidad := 5,
    precio := 19, categoria := some "Perifericos" }

/-- A concrete one-row database used to exercise the theorems below. -/
def dbDemo : DB :=
  { rows := [productoDemo], nextId := 2 }

lemma aplicarCampos_id (r : Producto) (n d : Option String) (c : Option Int)
    (p : Option Rat) (cat : Option String) :
    (aplicarCampos r n d c p cat).id = r.id :=
  rfl

lemma find?_id_map (l : List Producto) (f : Producto → Producto)
    (hf : ∀ r, (f r).id = r.id) (i : Int) :
    (l.map f).find? (fun r => r.id == i) = (l.find? (fun r => r.id == i)).map f := by
  induction l with
  | nil => rfl
  | cons a t ih =>
    by_cases h : a.id = i
    · rw [List.map_cons, List.find?_cons_of_pos _ (by simp [hf, h]),
        List.find?_cons_of_pos _ (by simp [h])]
      rfl
    · rw [List.map_cons, List.find?_cons_of_neg _ (by simp [hf, h]),
        List.find?_cons_of_neg _ (by simp [h]), ih]

lemma getD_map_lt (f : Producto → Producto) (dummy : Producto) :
    ∀ (l : List Producto) (j : Nat), j < l.length →
      (l.map f).getD j dummy = f (l.getD j dummy) := by
  intro l
  induction l with
  | nil => intro j h; simp at h
  | cons a t ih =>
    intro j h
    cases j with
    | zero => rfl
    | succ k =>
      simp only [List.map_cons, List.getD_cons_succ]
      exact ih k (by simpa using h)

lemma length_filter_sin_id (i : Int) :
    ∀ l : List Producto, (l.map (fun r => r.id)).Nodup →
      ∀ r₀ ∈ l, r₀.id = i →
      (l.filter (fun r => !(r.id == i))).length + 1 = l.length := by
  intro l
  induction l with
  | nil => intro _ r₀ hmem; cases hmem
  | cons a t ih =>
    intro hnd r₀ hmem hid
    rw [List.map_cons, List.nodup_cons] at hnd
    by_cases h : a.id = i
    · rw [List.filter_cons_of_neg (by simp [h])]
      have ht : t.filter (fun r => !(r.id == i)) = t := by
        apply List.filter_eq_self.mpr
        intro x hx
        have hxi : x.id ≠ i := by
          intro hxi
          exact hnd.1 (by rw [h, ← hxi]; exact List.mem_map_of_mem _ hx)
        simp [hxi]
      rw [ht]
      simp
    · rw [List.filter_cons_of_pos (by simp [h])]
      have hr : r₀ ∈ t := by
        cases hmem with
        | head => exact absurd hid h
        | tail _ hmem2 => exact hmem2
      have := ih hnd.2 r₀ hr hid
      simp only [List.length_cons]
      omega

lemma anySuffix_true (f : List Char → Bool) (hf : ∀ s, f s = true)
    (s : List Char) : anySuffix f s = true := by
  induction s <;> simp [anySuffix, hf, *]

lemma anySuffix_nil_true (s : List Char) :
    anySuffix (likeMatch []) s = true := by
  induction s with
  | nil => rfl
  | cons c t ih => simp [anySuffix, ih]

lemma likeMatch_pct (s : List Char) : likeMatch ['%'] s = true := by
  have h : likeMatch ['%'] s = anySuffix (likeMatch []) s := by simp [likeMatch]
  rw [h, anySuffix_nil_true]

lemma likeMatch_patron_vacio (s : List Char) :
    likeMatch (likePattern "") s = true := by
  have hp : likePattern "" = ['%', '%'] := rfl
  have h : likeMatch ['%', '%'] s = anySuffix (likeMatch ['%']) s := by
    simp [likeMatch]
  rw [hp, h]
  exact anySuffix_true _ (fun t => likeMatch_pct t) s

/-- Claim C6: for every integer threshold T, reporte_bajo_stock returns
exactly the stored products whose quantity is at most T, as a sublist of
the table (storage-native order), and returns the empty list when T is
strictly below every stored quantity. -/
theorem C6_reporte_bajo_stock_correcto (db : DB) (T : Int) :
    List.Sublist (reporte_bajo_stock db T) db.rows
    ∧ (∀ r, r ∈ reporte_bajo_stock db T ↔ r ∈ db.rows ∧ r.cantidad ≤ T)
    ∧ ((∀ r ∈ db.rows, T < r.cantidad) → reporte_bajo_stock db T = []) := by
  refine ⟨List.filter_sublist db.rows, fun r => ?_, fun h => ?_⟩
  · unfold reporte_bajo_stock
    rw [List.mem_filter]
    simp
  · unfold reporte_bajo_stock
    rw [List.filter_eq_nil_iff]
    intro a ha
    have := h a ha
    simp
    omega

/-- Witness for C6 at a concrete database and threshold. -/
theorem C6_reporte_bajo_stock_correcto_witness :
    reporte_bajo_stock dbDemo 3 = [] :=
  (C6_reporte_bajo_stock_correcto dbDemo 3).2.2 (by decide)

/-- Claim C10: for every search string, buscar_productos_por_categoria
never returns a row whose category is NULL (in SQL, `NULL LIKE pattern` is
not true), and with the empty search string it returns exactly the rows
with a non-NULL category — not all rows. -/
theorem C10_categoria_null_invisible (db : DB) (s : String) :
    ((buscar_productos_por_categoria db s).all
      (fun r => r.categoria.isSome)) = true
    ∧ buscar_productos_por_categoria db "" =
        db.rows.filter (fun r => r.categoria.isSome) := by
  constructor
  · rw [List.all_eq_true]
    intro r hr
    have hp := (List.mem_filter.mp hr).2
    cases hc : r.categoria with
    | none => rw [hc] at hp; simp at hp
    | some c => simp
  · unfold buscar_productos_por_categoria
    apply List.filter_congr
    intro r _
    cases hc : r.categoria with
    | none => simp
    | some c => simp [likeMatch_patron_vacio]

/-- Claim C5: creating a product and fetching it by the id assigned by the
store returns a record whose five fields are exactly the supplied values
(given the AUTOINCREMENT freshness invariant). -/
theorem C5_alta_consulta_roundtrip (db : DB) (h : db.idsFrescos)
    (nombre : String) (descripcion : Option String) (cantidad : Int)
    (precio : Rat) (categoria : Option String) :
    (registrar_producto db nombre descripcion cantidad precio categoria).1 = true
    ∧ buscar_producto_por_id
        (registrar_producto db nombre descripcion cantidad precio categoria).2
        db.nextId =
      some { id := db.nextId, nombre := nombre, descripcion := descripcion,
             cantidad := cantidad, precio := precio, categoria := categoria } := by
  refine ⟨rfl, ?_⟩
  unfold buscar_producto_por_id registrar_producto
  rw [List.find?_append]
  have hnone : db.rows.find? (fun r => r.id == db.nextId) = none := by
    rw [List.find?_eq_none]
    intro r hr
    have := h r hr
    simp
    omega
  rw [hnone]
  simp [List.find?]

/-- Witness for C5 at a concrete database and input tuple. -/
theorem C5_alta_consulta_roundtrip_witness :
    buscar_producto_por_id
      (registrar_producto dbDemo "Mouse" none 3 9 none).2 dbDemo.nextId =
    some { id := 2, nombre := "Mouse", descripcion := none, cantidad := 3,
           precio := 9, categoria := none } :=
  (C5_alta_consulta_roundtrip dbDemo (by decide) "Mouse" none 3 9 none).2

/-- Claim C3: a successful partial update changes exactly the supplied
fields of the addressed record to the supplied values (an explicitly
supplied empty string counts as a value and does change the field), leaves
its unsupplied fields and its id unchanged, and leaves every other record
(position by position) unchanged. -/
theorem C3_actualizar_frame (db : DB) (i : Int) (n d : Option String)
    (c : Option Int) (p : Option Rat) (cat : Option String)
    (r₀ dummy : Producto)
    (hfound : buscar_producto_por_id db i = some r₀)
    (hcampos : camposVacios n d c p cat = false) :
    (actualizar_producto db i n d c p cat).1 = UpdateOutcome.updated
    ∧ (actualizar_producto db i n d c p cat).2.nextId = db.nextId
    ∧ (actualizar_producto db i n d c p cat).2.rows.length = db.rows.length
    ∧ (∀ j : Nat, (db.rows.getD j dummy).id ≠ i →
        (actualizar_producto db i n d c p cat).2.rows.getD j dummy =
          db.rows.getD j dummy)
    ∧ buscar_producto_por_id (actualizar_producto db i n d c p cat).2 i =
        some (aplicarCampos r₀ n d c p cat)
    ∧ (aplicarCampos r₀ n d c p cat).id = r₀.id
    ∧ (aplicarCampos r₀ n d c p cat).nombre = n.getD r₀.nombre
    ∧ (aplicarCampos r₀ n d c p cat).descripcion =
        (d.map some).getD r₀.descripcion
    ∧ (aplicarCampos r₀ n d c p cat).cantidad = c.getD r₀.cantidad
    ∧ (aplicarCampos r₀ n d c p cat).precio = p.getD r₀.precio
    ∧ (aplicarCampos r₀ n d c p cat).categoria =
        (cat.map some).getD r₀.categoria := by
  have hf : ∀ r : Producto,
      ((fun r => if r.id == i then aplicarCampos r n d c p cat else r) r).id =
        r.id := by
    intro r
    by_cases h : r.id = i <;> simp [h, aplicarCampos_id]
  have hrows : actualizar_producto db i n d c p cat =
      (UpdateOutcome.updated,
       { db with rows := db.rows.map (fun r =>
           if r.id == i then aplicarCampos r n d c p cat else r) }) := by
    unfold actualizar_producto
    rw [hfound]
    simp [hcampos]
  refine ⟨by rw [hrows], by rw [hrows], ?_, ?_, ?_, rfl, rfl,
    by cases d <;> rfl, rfl, rfl, by cases cat <;> rfl⟩
  · rw [hrows]
    simp
  · intro j hj
    rw [hrows]
    by_cases hlen : j < db.rows.length
    · have hm := getD_map_lt
        (fun r => if r.id == i then aplicarCampos r n d c p cat else r)
        dummy db.rows j hlen
      have hcond : ((db.rows.getD j dummy).id == i) = false := by
        simpa using hj
      simp only at hm ⊢
      rw [hm, hcond]
      simp
    · have h1 := List.getD_eq_default db.rows dummy (Nat.le_of_not_lt hlen)
      have h2 := List.getD_eq_default
        (db.rows.map (fun r => if r.id == i then aplicarCampos r n d c p cat else r))
        dummy (by simpa using Nat.le_of_not_lt hlen)
      simp only at h2 ⊢
      rw [h1, h2]
  · rw [hrows]
    have hfound2 : List.find? (fun r => r.id == i) db.rows = some r₀ := hfound
    unfold buscar_producto_por_id
    simp only
    rw [find?_id_map _ _ hf i, hfound2]
    have hr : (r₀.id == i) = true := by simpa using List.find?_some hfound2
    simp [hr]
    intro habs
    exact absurd (by simpa using hr) habs

/-- Witness for C3 at a concrete database: updating only the name of the
stored product, to the explicit empty string. -/
theorem C3_actualizar_frame_witness :
    (actualizar_producto dbDemo 1 (some "") none none none none).1 =
      UpdateOutcome.updated
    ∧ buscar_producto_por_id
        (actualizar_producto dbDemo 1 (some "") none none none none).2 1 =
      some (aplicarCampos productoDemo (some "") none none none none) :=
  ⟨(C3_actualizar_frame dbDemo 1 (some "") none none none none productoDemo
      productoDemo (by decide) (by decide)).1,
   (C3_actualizar_frame dbDemo 1 (some "") none none none none productoDemo
      productoDemo (by decide) (by decide)).2.2.2.2.1⟩

/-- Claim C4: update returns failure without raising — the "does not
exist" outcome when the id has no matching record, and the distinct
"nothing to update" outcome when zero fields are supplied — and in both
cases the stored table is completely unchanged. -/
theorem C4_actualizar_fallos (db : DB) (i : Int) (n d : Option String)
    (c : Option Int) (p : Option Rat) (cat : Option String) :
    ((buscar_producto_por_id db i).isNone = true →
      actualizar_producto_f db i n d c p cat false false =
        PResult.ok (UpdateOutcome.notFound, db))
    ∧ (camposVacios n d c p cat = true →
        (buscar_producto_por_id db i).isNone = false →
        actualizar_producto_f db i n d c p cat false false =
          PResult.ok (UpdateOutcome.nothingToUpdate, db)) := by
  constructor
  · intro h
    unfold actualizar_producto_f
    simp [h]
  · intro hc h
    unfold actualizar_producto_f
    simp [h, hc]

/-- Witness for C4 at a concrete database: a missing id and an empty field
set. -/
theorem C4_actualizar_fallos_witness :
    actualizar_producto_f dbDemo 99 (some "a") none none none none false false =
      PResult.ok (UpdateOutcome.notFound, dbDemo)
    ∧ actualizar_producto_f dbDemo 1 none none none none none false false =
      PResult.ok (UpdateOutcome.nothingToUpdate, dbDemo) :=
  ⟨(C4_actualizar_fallos dbDemo 99 (some "a") none none none none).1 (by decide),
   (C4_actualizar_fallos dbDemo 1 none none none none none).2 (by decide)
     (by decide)⟩

/-- Claim C7: deleting a nonexistent id returns failure and leaves the
store completely unchanged; deleting an existing id returns success,
removes exactly that record (every other record is kept, in order), and a
subsequent get-by-id reports not-found. -/
theorem C7_eliminar_correcto (db : DB) (i : Int) (h : db.idsDistintos) :
    ((buscar_producto_por_id db i).isNone = true →
      eliminar_producto db i = (false, db))
    ∧ ((buscar_producto_por_id db i).isNone = false →
        (eliminar_producto db i).1 = true
        ∧ (eliminar_producto db i).2.nextId = db.nextId
        ∧ buscar_producto_por_id (eliminar_producto db i).2 i = none
        ∧ List.Sublist (eliminar_producto db i).2.rows db.rows
        ∧ (∀ r ∈ db.rows, r.id ≠ i → r ∈ (eliminar_producto db i).2.rows)
        ∧ (∀ r ∈ (eliminar_producto db i).2.rows, r ∈ db.rows ∧ r.id ≠ i)
        ∧ (eliminar_producto db i).2.rows.length + 1 = db.rows.length) := by
  constructor
  · intro hn
    unfold eliminar_producto
    simp [hn]
  · intro hn
    have hdel : eliminar_producto db i =
        (true, { db with rows := db.rows.filter (fun r => !(r.id == i)) }) := by
      unfold eliminar_producto
      simp [hn]
    obtain ⟨r₀, hr₀⟩ : ∃ r₀, buscar_producto_por_id db i = some r₀ := by
      cases hb : buscar_producto_por_id db i with
      | none => rw [hb] at hn; simp at hn
      | some r => exact ⟨r, rfl⟩
    have hmem : r₀ ∈ db.rows := List.mem_of_find?_eq_some hr₀
    have hid : r₀.id = i := by simpa using List.find?_some hr₀
    refine ⟨by rw [hdel], by rw [hdel], ?_, ?_, ?_, ?_, ?_⟩
    · rw [hdel]
      unfold buscar_producto_por_id
      simp only
      rw [List.find?_eq_none]
      intro x hx
      simpa using (List.mem_filter.mp hx).2
    · rw [hdel]
      exact List.filter_sublist db.rows
    · intro r hr hne
      rw [hdel]
      exact List.mem_filter.mpr ⟨hr, by simp [hne]⟩
    · intro r hr
      rw [hdel] at hr
      have hrf := List.mem_filter.mp hr
      exact ⟨hrf.1, by simpa using hrf.2⟩
    · rw [hdel]
      exact length_filter_sin_id i db.rows h r₀ hmem hid

/-- Witness for C7 at a concrete database: a missing id and an existing
one. -/
theorem C7_eliminar_correcto_witness :
    eliminar_producto dbDemo 99 = (false, dbDemo)
    ∧ (eliminar_producto dbDemo 1).1 = true :=
  ⟨(C7_eliminar_correcto dbDemo 99 (by decide)).1 (by decide),
   ((C7_eliminar_correcto dbDemo 1 (by decide)).2 (by decide)).1⟩

lemma actualizar_map_id (db : DB) (i : Int) (n d : Option String)
    (c : Option Int) (p : Option Rat) (cat : Option String) :
    (actualizar_producto db i n d c p cat).2.rows.map (fun r => r.id) =
      db.rows.map (fun r => r.id) := by
  unfold actualizar_producto
  by_cases h1 : (buscar_producto_por_id db i).isNone = true
  · simp [h1]
  · have h1f : (buscar_producto_por_id db i).isNone = false :=
      Bool.not_eq_true _ ▸ eq_false_of_ne_true h1
    by_cases h2 : camposVacios n d c p cat = true
    · simp [h1f, h2]
    · have h2f : camposVacios n d c p cat = false :=
        eq_false_of_ne_true h2
      simp only [h1f, h2f, Bool.false_eq_true, if_false]
      rw [List.map_map]
      apply List.map_congr_left
      intro r _
      by_cases hr : r.id = i <;> simp [hr, aplicarCampos_id]

lemma actualizar_nextId (db : DB) (i : Int) (n d : Option String)
    (c : Option Int) (p : Option Rat) (cat : Option String) :
    (actualizar_producto db i n d c p cat).2.nextId = db.nextId := by
  unfold actualizar_producto
  by_cases h1 : (buscar_producto_por_id db i).isNone = true
  · simp [h1]
  · have h1f : (buscar_producto_por_id db i).isNone = false :=
      eq_false_of_ne_true h1
    by_cases h2 : camposVacios n d c p cat = true <;> simp [h1f, h2]

/-- Claim C8: the store keeps ids pairwise distinct and stable — create
assigns the fresh AUTOINCREMENT id (not present in the table) and appends
it, update never touches the id column (the list of ids is unchanged), and
every mutating operation preserves the well-formedness invariant. -/
theorem C8_ids_invariante (db : DB) (h : db.wf) (nombre : String)
    (descripcion : Option String) (cantidad : Int) (precio : Rat)
    (categoria : Option String) (i : Int) (n d : Option String)
    (c : Option Int) (p : Option Rat) (cat : Option String) :
    db.nextId ∉ db.rows.map (fun r => r.id)
    ∧ (registrar_producto db nombre descripcion cantidad precio
        categoria).2.rows.map (fun r => r.id) =
        db.rows.map (fun r => r.id) ++ [db.nextId]
    ∧ (registrar_producto db nombre descripcion cantidad precio categoria).2.wf
    ∧ (actualizar_producto db i n d c p cat).2.rows.map (fun r => r.id) =
        db.rows.map (fun r => r.id)
    ∧ (actualizar_producto db i n d c p cat).2.nextId = db.nextId
    ∧ (actualizar_producto db i n d c p cat).2.wf
    ∧ (eliminar_producto db i).2.wf := by
  obtain ⟨hnd, hfr⟩ := h
  have hfresh : db.nextId ∉ db.rows.map (fun r => r.id) := by
    intro hmem
    obtain ⟨r, hr, hid⟩ := List.mem_map.mp hmem
    have := hfr r hr
    omega
  refine ⟨hfresh, by simp [registrar_producto], ⟨?_, ?_⟩,
    actualizar_map_id db i n d c p cat, actualizar_nextId db i n d c p cat,
    ⟨?_, ?_⟩, ?_⟩
  · show ((registrar_producto db nombre descripcion cantidad precio
      categoria).2.rows.map (fun r => r.id)).Nodup
    have hmap : (registrar_producto db nombre descripcion cantidad precio
        categoria).2.rows.map (fun r => r.id) =
        db.rows.map (fun r => r.id) ++ [db.nextId] := by
      simp [registrar_producto]
    rw [hmap, List.nodup_append]
    refine ⟨hnd, List.nodup_singleton _, fun a ha hb => ?_⟩
    rw [List.mem_singleton.mp hb] at ha
    exact hfresh ha
  · intro r hr
    simp only [registrar_producto] at hr ⊢
    rcases List.mem_append.mp hr with hold | hnew
    · have := hfr r hold
      omega
    · have : r.id = db.nextId := by
        rw [List.mem_singleton.mp hnew]
      omega
  · show ((actualizar_producto db i n d c p cat).2.rows.map
      (fun r => r.id)).Nodup
    rw [actualizar_map_id]
    exact hnd
  · intro r hr
    have hidmem : r.id ∈ (actualizar_producto db i n d c p cat).2.rows.map
        (fun r => r.id) := List.mem_map_of_mem _ hr
    rw [actualizar_map_id] at hidmem
    obtain ⟨r2, hr2, hid2⟩ := List.mem_map.mp hidmem
    rw [actualizar_nextId]
    have := hfr r2 hr2
    omega
  · unfold eliminar_producto
    by_cases h1 : (buscar_producto_por_id db i).isNone = true
    · simp only [h1, if_true]
      exact ⟨hnd, hfr⟩
    · have h1f : (buscar_producto_por_id db i).isNone = false :=
        eq_false_of_ne_true h1
      simp only [h1f, Bool.false_eq_true, if_false]
      constructor
      · show ((db.rows.filter (fun r => !(r.id == i))).map
          (fun r => r.id)).Nodup
        exact hnd.sublist ((List.filter_sublist db.rows).map _)
      · intro r hr
        exact hfr r (List.mem_filter.mp hr).1

/-- Witness for C8 at a concrete database: create appends the fresh id. -/
theorem C8_ids_invariante_witness :
    (registrar_producto dbDemo "Mouse" none 3 9 none).2.rows.map
      (fun r => r.id) = dbDemo.rows.map (fun r => r.id) ++ [dbDemo.nextId] :=
  (C8_ids_invariante dbDemo ⟨by decide, by decide⟩ "Mouse" none 3 9 none 1
    none none none none none).2.1

/-- Claim C9: the delete dialog invokes the store's delete only after the
user answers the confirmation prompt with the yes-token (`upper() == "S"`);
on any other confirmation input the action is cancelled and the store is
left unchanged. -/
theorem C9_confirmacion_eliminar (db : DB) (idLine confirmLine : String) :
    ((opcion_eliminar db idLine confirmLine).2 = true →
      pyUpper confirmLine.data = ['S'])
    ∧ ((opcion_eliminar db idLine confirmLine).2 = false →
      (opcion_eliminar db idLine confirmLine).1 = db) := by
  unfold opcion_eliminar
  cases hobt : obtener_entero idLine with
  | none => simp
  | some idp =>
    by_cases hb : (buscar_producto_por_id db idp).isNone = true
    · simp [hb]
    · have hb2 : (buscar_producto_por_id db idp).isNone = false :=
        eq_false_of_ne_true hb
      by_cases hs : pyUpper confirmLine.data = ['S'] <;> simp [hb2, hs]

/-- Witness for C9 at a concrete database: answering "n" cancels and leaves
the store unchanged. -/
theorem C9_confirmacion_eliminar_witness :
    (opcion_eliminar dbDemo "1" "n").1 = dbDemo :=
  (C9_confirmacion_eliminar dbDemo "1" "n").2 (by decide)

/-- Claim C2 as stated is refuted: visualizar_productos (list_all) has no
try/except, so a persistence error during its SELECT escapes the store
uncaught at this concrete database. -/
theorem C2_lectura_excepcion_counterexample :
    visualizar_productos_f dbDemo true = PResult.exn := by
  decide

/-- Claim C2 amended: create catches a persistence fault and returns
failure; update and delete catch a fault raised by their own UPDATE/DELETE
statement and return a failure outcome with the table unchanged; but the
five read operations have no handler and let the exception escape, as do
update and delete when the fault strikes their initial existence check. -/
theorem C2_manejo_fallos_amended (db : DB) (nombre s : String)
    (descripcion : Option String) (cantidad : Int) (precio : Rat)
    (categoria : Option String) (i limite : Int) (n d : Option String)
    (c : Option Int) (p : Option Rat) (cat : Option String) (fu fd : Bool) :
    registrar_producto_f db nombre descripcion cantidad precio categoria true =
      PResult.ok (false, db)
    ∧ (actualizar_producto_f db i n d c p cat false true =
        PResult.ok (UpdateOutcome.notFound, db)
       ∨ actualizar_producto_f db i n d c p cat false true =
        PResult.ok (UpdateOutcome.nothingToUpdate, db)
       ∨ actualizar_producto_f db i n d c p cat false true =
        PResult.ok (UpdateOutcome.sqlError, db))
    ∧ eliminar_producto_f db i false true = PResult.ok (false, db)
    ∧ visualizar_productos_f db true = PResult.exn
    ∧ buscar_producto_por_id_f db i true = PResult.exn
    ∧ buscar_productos_por_nombre_f db s true = PResult.exn
    ∧ buscar_productos_por_categoria_f db s true = PResult.exn
    ∧ reporte_bajo_stock_f db limite true = PResult.exn
    ∧ actualizar_producto_f db i n d c p cat true fu = PResult.exn
    ∧ eliminar_producto_f db i true fd = PResult.exn := by
  refine ⟨rfl, ?_, ?_, rfl, rfl, rfl, rfl, rfl, rfl, rfl⟩
  · unfold actualizar_producto_f
    by_cases h1 : (buscar_producto_por_id db i).isNone = true
    · left
      simp [h1]
    · have h1f : (buscar_producto_por_id db i).isNone = false :=
        eq_false_of_ne_true h1
      by_cases h2 : camposVacios n d c p cat = true
      · right
        left
        simp [h1f, h2]
      · right
        right
        simp [h1f, eq_false_of_ne_true h2]
  · unfold eliminar_producto_f
    by_cases h1 : (buscar_producto_por_id db i).isNone = true
    · simp [h1]
    · simp [eq_false_of_ne_true h1]

/-- Claim C1 fails on the code: in the update dialog the quantity line is
parsed with a bare `int()` (and the price line with a bare `float()`), so
the non-numeric, non-blank entry "x" at the quantity prompt of an existing
product raises an uncaught ValueError and crashes the process — while the
validated helper obtener_entero, used by every other numeric prompt,
converts the same entry into an error report and an abort. -/
theorem C1_dialogo_actualizar_excepcion :
    opcion_actualizar dbDemo "1" "" "" "x" "" "" = PResult.exn
    ∧ obtener_entero "x" = none :=
  ⟨by decide, by decide⟩

end Inventario
